import Mathlib

/-!
Channel reconciler (pkg/reconciler/channel/channel.go)

A shallow embedding of the Channel reconciler: `Reconcile`, `reconcile`,
`updateStatus`, `syncSubscribers`, `createTopic` and `getTopic`.

* Go pointers that may be nil are `Option`; a Go `error` is `Option Error`.
* Go slices are `List`; a nil slice and an empty slice are both `[]`.
* `DeepCopy` is the identity, Lean values being immutable; `DeepEqual` is `=`.
* The clientset, the lister, the event recorder and the stats reporter are
  external collaborators: every call to them is a transition of an abstract
  external state `σ`, and the reconciler's calls are recorded, in order, in a
  trace.
* Plain logger calls are not recorded, except the three logging loops of
  `syncSubscribers`, which are the only thing that function does with the
  sets it computes.
* Timestamps (condition transition times, `time.Since`) are not modelled.
* The Channel lifecycle helpers (`InitializeConditions`, `MarkTopicReady`,
  `MarkTopicOperating`, `MarkNoTopic`, `IsReady`, `GetCondition`) live in
  pkg/apis, outside the sources at hand, and are modelled from the spec; the
  manifest builders and key helpers are fields of `Deps`.
-/

namespace ChannelReconciler

/-! ## Data model -/

/-- Go `error` values, as far as the reconciler inspects them:
`apierrors.IsNotFound` and the message. -/
structure Error where
  isNotFound : Bool
  msg : String
  deriving DecidableEq, Repr

/-- Go `apierrors.IsNotFound(err)`; a nil error is not a not-found error. -/
def IsNotFound : Option Error → Bool
  | none => false
  | some e => e.isNotFound

/-- Go `apierrors.NewNotFound(schema.GroupResource{}, "")`. -/
def NewNotFound : Error := { isNotFound := true, msg := " \"\" not found" }

/-- The fields of `eventingduck.SubscriberSpec` that the reconciler reads. -/
structure SubscriberSpec where
  UID : String
  Generation : Int
  deriving DecidableEq, Repr

/-- The fields of `eventingduck.SubscriberStatus` that the reconciler reads. -/
structure SubscriberStatus where
  UID : String
  ObservedGeneration : Int
  deriving DecidableEq, Repr

/-- A named condition; `Status` is a `corev1.ConditionStatus`, a string
among "True", "False" and "Unknown". -/
structure Condition where
  Type_ : String
  Status : String
  Reason : String
  Message : String
  deriving DecidableEq, Repr

/-- Go `(*Condition).IsTrue` on a non-nil condition. -/
def Condition.IsTrue (c : Condition) : Bool := c.Status == "True"

/-- Go `(*Condition).IsFalse` on a non-nil condition. -/
def Condition.IsFalse (c : Condition) : Bool := c.Status == "False"

/-- Go `(*Condition).IsUnknown` on a non-nil condition. -/
def Condition.IsUnknown (c : Condition) : Bool := c.Status == "Unknown"

/-- The `Subscribable` block of a Channel spec. -/
structure Subscribable where
  Subscribers : List SubscriberSpec
  deriving DecidableEq, Repr

/-- The spec of a Channel: project, optional credential reference, and
the optional list of subscriber descriptors. -/
structure ChannelSpec where
  Project : String
  Secret : Option String
  Subscribable : Option Subscribable
  deriving DecidableEq, Repr

/-- The status of a Channel: condition set, address, generated topic
identifier, subscriber status entries, observed generation. -/
structure ChannelStatus where
  Conditions : List Condition
  Address : Option String
  TopicID : String
  Subscribers : List SubscriberStatus
  ObservedGeneration : Int
  deriving DecidableEq, Repr

/-- The Channel resource. -/
structure Channel where
  Namespace : String
  Name : String
  UID : String
  Generation : Int
  DeletionTimestamp : Option Nat
  Spec : ChannelSpec
  Status : ChannelStatus
  deriving DecidableEq, Repr

/-- An owner reference of a child object. -/
structure OwnerReference where
  UID : String
  Controller : Option Bool
  deriving DecidableEq, Repr

/-- The status of a Topic: condition set and optional address. -/
structure TopicStatus where
  Conditions : List Condition
  Address : Option String
  deriving DecidableEq, Repr

/-- The Topic resource (owned child of a Channel). -/
structure Topic where
  Namespace : String
  Name : String
  OwnerReferences : List OwnerReference
  Labels : List (String × String)
  Project : String
  Secret : Option String
  TopicID : String
  Status : TopicStatus
  deriving DecidableEq, Repr

/-! ## Subscriber differ (`syncSubscribers`, lines 192-219) -/

/-- A Go `map[types.UID]eventingduck.SubscriberStatus`, as an association
list. Go leaves the iteration order of a map unspecified; the model iterates
in list order, and the theorems on `subD` speak of membership only. -/
abbrev UIDMap := List (String × SubscriberStatus)

/-- Go `v, ok := m[k]`. -/
def UIDMap.get (m : UIDMap) (k : String) : Option SubscriberStatus :=
  (m.find? (fun e => e.1 == k)).map Prod.snd

/-- Go `m[k] = v`. -/
def UIDMap.set (m : UIDMap) (k : String) (v : SubscriberStatus) : UIDMap :=
  m.filter (fun e => !(e.1 == k)) ++ [(k, v)]

/-- Go `delete(m, k)`. -/
def UIDMap.delete (m : UIDMap) (k : String) : UIDMap :=
  m.filter (fun e => !(e.1 == k))

/-- Every entry of the map is stored under the UID of its value. -/
def UIDMap.Keyed (m : UIDMap) : Prop := ∀ e ∈ m, e.2.UID = e.1

/-- The local variables of `syncSubscribers`: the three sets and the map
of observed entries. -/
structure SyncState where
  subC : List SubscriberSpec
  subU : List SubscriberSpec
  subD : List SubscriberStatus
  exists_ : UIDMap
  deriving DecidableEq, Repr

/-- Lines 196-199: `exists[s.UID] = s` for every status entry. -/
def buildExists (subs : List SubscriberStatus) : UIDMap :=
  subs.foldl (fun m s => m.set s.UID s) []

/-- Lines 203-212: the body of the loop over the desired subscribers.
`subU = append(subU)` appends no element. -/
def syncStep (st : SyncState) (want : SubscriberSpec) : SyncState :=
  let st1 :=
    match st.exists_.get want.UID with
    | none => { st with subC := st.subC ++ [want] }
    | some got =>
      if got.ObservedGeneration ≠ want.Generation then
        { st with subU := st.subU ++ [] }
      else st
  { st1 with exists_ := st1.exists_.delete want.UID }

/-- Lines 192-219: the create, update and delete sets computed by
`syncSubscribers`, with the map left after the loop. -/
def syncSubscribersSets (channel : Channel) : SyncState :=
  let st0 : SyncState :=
    { subC := [], subU := [], subD := [], exists_ := buildExists channel.Status.Subscribers }
  let st1 :=
    match channel.Spec.Subscribable with
    | none => st0
    | some sb => sb.Subscribers.foldl syncStep st0
  st1.exists_.foldl (fun st e => { st with subD := st.subD ++ [e.2] }) st1

/-! ## Condition helpers of the Channel and Topic status types -/

/-- Modelled from the spec: the condition type constants of
pkg/apis/events/v1alpha1 (Channel lifecycle) are not part of the sources at
hand; this names the Channel's topic condition. -/
def ChannelConditionTopicReady : String := "TopicReady"

/-- Modelled from the spec: the Channel's overall readiness condition. -/
def ChannelConditionReady : String := "Ready"

/-- Modelled from the spec: the `Ready` condition of a Topic
(pkg/apis/pubsub/v1alpha1, not part of the sources at hand). -/
def TopicConditionReady : String := "Ready"

/-- Modelled from the spec: lookup of a named condition in a condition
set; nil when the condition is absent. -/
def getCond (cs : List Condition) (t : String) : Option Condition :=
  cs.find? (fun c => c.Type_ == t)

/-- Modelled from the spec: a condition set holds one condition per name;
setting a condition replaces the one of that name, or adds it. -/
def setCond (cs : List Condition) (c : Condition) : List Condition :=
  if (getCond cs c.Type_).isSome then
    cs.map (fun x => if x.Type_ == c.Type_ then c else x)
  else cs ++ [c]

/-- Modelled from the spec: `TopicStatus.GetCondition`. -/
def TopicStatus.GetCondition (ts : TopicStatus) (t : String) : Option Condition :=
  getCond ts.Conditions t

/-- Modelled from the spec: `ChannelStatus.GetCondition`. -/
def ChannelStatus.GetCondition (cs : ChannelStatus) (t : String) : Option Condition :=
  getCond cs.Conditions t

/-- Modelled from the spec: `ChannelStatus.InitializeConditions` (Channel
lifecycle, not part of the sources at hand): "Initialize status conditions to
their default unknown state if absent." -/
def ChannelStatus.InitializeConditions (cs : ChannelStatus) : ChannelStatus :=
  let init := fun (l : List Condition) (t : String) =>
    if (getCond l t).isSome then l
    else l ++ [{ Type_ := t, Status := "Unknown", Reason := "", Message := "" }]
  { cs with
    Conditions := init (init cs.Conditions ChannelConditionReady) ChannelConditionTopicReady }

/-- Modelled from the spec: `ChannelStatus.MarkTopicReady` (Channel
lifecycle, not part of the sources at hand): "mark Channel's topic condition
ready". -/
def ChannelStatus.MarkTopicReady (cs : ChannelStatus) : ChannelStatus :=
  { cs with
    Conditions := setCond cs.Conditions
      { Type_ := ChannelConditionTopicReady, Status := "True", Reason := "", Message := "" } }

/-- Modelled from the spec: `ChannelStatus.MarkTopicOperating` (Channel
lifecycle, not part of the sources at hand): mark "operating" (condition
Unknown) with the given reason and message. -/
def ChannelStatus.MarkTopicOperating (cs : ChannelStatus) (reason message : String) :
    ChannelStatus :=
  { cs with
    Conditions := setCond cs.Conditions
      { Type_ := ChannelConditionTopicReady, Status := "Unknown", Reason := reason,
        Message := message } }

/-- Modelled from the spec: `ChannelStatus.MarkNoTopic` (Channel lifecycle,
not part of the sources at hand): mark "not ready" (condition False) with the
given reason and message. -/
def ChannelStatus.MarkNoTopic (cs : ChannelStatus) (reason message : String) : ChannelStatus :=
  { cs with
    Conditions := setCond cs.Conditions
      { Type_ := ChannelConditionTopicReady, Status := "False", Reason := reason,
        Message := message } }

/-- Modelled from the spec: `ChannelStatus.IsReady` (Channel lifecycle, not
part of the sources at hand): the overall readiness condition is True. -/
def ChannelStatus.IsReady (cs : ChannelStatus) : Bool :=
  match cs.GetCondition ChannelConditionReady with
  | some c => c.IsTrue
  | none => false

/-! ## External collaborators -/

/-- The argument struct of `resources.MakeTopic`. -/
structure TopicArgs where
  Owner : Channel
  Project : String
  Secret : Option String
  Topic : String
  Labels : List (String × String)
  deriving DecidableEq, Repr

/-- The reconciler's calls on its collaborators, in the order issued. -/
inductive Action where
  | channelGet (ns name : String)
  | topicsList (ns labelSelector : String)
  | topicsCreate (ns : String) (topic : Topic)
  | channelsUpdateStatus (ns : String) (channel : Channel)
  | event (object : Channel) (eventtype reason messageFmt : String) (args : List String)
  | reportReady (kind ns name : String)
  | info (format : String) (args : List String)
  deriving DecidableEq, Repr

/-- The collaborators of the reconciler over an external state `σ` (the
object store and the informer cache), with the helpers of packages that are
not part of the sources at hand.

* `channelGet` is `channelLister.Channels(ns).Get(name)`: an object or an error.
* `topicsList` is `Topics(ns).List(opts)`: the items or an error.
* `topicsCreate` is `Topics(ns).Create(topic)`: the result object, which the
  generated client always allocates, and the error.
* `channelsUpdateStatus` is `Channels(ns).UpdateStatus(channel)`, likewise.
* `SetAddress` is `ChannelStatus.SetAddress`, on which the spec is silent. -/
structure Deps (σ : Type) where
  channelGet : String → String → σ → Except Error Channel × σ
  topicsList : String → String → σ → Except Error (List Topic) × σ
  topicsCreate : String → Topic → σ → (Topic × Option Error) × σ
  channelsUpdateStatus : String → Channel → σ → (Channel × Option Error) × σ
  SplitMetaNamespaceKey : String → Except Error (String × String)
  IsControlledBy : Topic → Channel → Bool
  controllerAgentName : String
  GenerateTopicName : String → String → String
  GenerateSubscriptionName : String → String → String
  GetLabels : String → String → List (String × String)
  GetLabelSelector : String → String → String
  MakeTopic : TopicArgs → Topic
  SetAddress : Option String → ChannelStatus → ChannelStatus

/-- The external state together with the trace of the calls issued so far. -/
structure World (σ : Type) where
  ext : σ
  trace : List Action

/-- Append one call to the trace. -/
def World.record {σ : Type} (w : World σ) (a : Action) : World σ :=
  { w with trace := w.trace ++ [a] }

/-! ## The reconciler -/

/-- Lines 191-235: `syncSubscribers`. It computes the three sets, logs one
line per entry and returns nil; the Channel is not written. -/
def syncSubscribers {σ : Type} (D : Deps σ) (channel : Channel) (w : World σ) :
    Option Error × Channel × World σ :=
  let st := syncSubscribersSets channel
  let w1 := st.subC.foldl (fun w s => w.record (.info "Channel %q will create subscription %s"
    [channel.Name, D.GenerateSubscriptionName channel.Name s.UID])) w
  let w2 := st.subU.foldl (fun w s => w.record (.info "Channel %q will update subscription %s"
    [channel.Name, D.GenerateSubscriptionName channel.Name s.UID])) w1
  let w3 := st.subD.foldl (fun w s => w.record (.info "Channel %q will delete subscription %s"
    [channel.Name, D.GenerateSubscriptionName channel.Name s.UID])) w2
  (none, channel, w3)

/-- Lines 266-285: `getTopic`. -/
def getTopic {σ : Type} (D : Deps σ) (channel : Channel) (w : World σ) :
    (Option Topic × Option Error) × World σ :=
  let selector := D.GetLabelSelector D.controllerAgentName channel.Name
  let r := D.topicsList channel.Namespace selector w.ext
  let w1 : World σ :=
    { ext := r.2, trace := w.trace ++ [.topicsList channel.Namespace selector] }
  match r.1 with
  | .error err => ((none, some err), w1)
  | .ok items =>
    match items.find? (fun topic => D.IsControlledBy topic channel) with
    | some topic => ((some topic, none), w1)
    | none => ((none, some NewNotFound), w1)

/-- Lines 237-264: `createTopic`. The "TopicCreated" event is recorded
under `err != nil`, as in the source. -/
def createTopic {σ : Type} (D : Deps σ) (channel : Channel) (w : World σ) :
    (Option Topic × Option Error) × Channel × World σ :=
  let g := getTopic D channel w
  let err := g.1.2
  let w1 := g.2
  if err ≠ none ∧ IsNotFound err = false then ((none, err), channel, w1)
  else
    match g.1.1 with
    | some topic =>
      let channel1 : Channel :=
        match topic.Status.Address with
        | some url => { channel with Status := D.SetAddress (some url) channel.Status }
        | none => { channel with Status := D.SetAddress none channel.Status }
      ((some topic, none), channel1, w1)
    | none =>
      let obj := D.MakeTopic
        { Owner := channel
          Project := channel.Spec.Project
          Secret := channel.Spec.Secret
          Topic := channel.Status.TopicID
          Labels := D.GetLabels D.controllerAgentName channel.Name }
      let r := D.topicsCreate channel.Namespace obj w1.ext
      let w2 : World σ :=
        { ext := r.2, trace := w1.trace ++ [.topicsCreate channel.Namespace obj] }
      let w3 :=
        if r.1.2 ≠ none then
          w2.record (.event channel "Normal" "TopicCreated" "Created Topic %q" [r.1.1.Name])
        else w2
      ((some r.1.1, r.1.2), channel, w3)

/-- Lines 142-150: propagation of the Topic's Ready condition onto the
Channel status. -/
def propagateTopicStatus (topic : Topic) (st : ChannelStatus) : ChannelStatus :=
  match topic.Status.GetCondition TopicConditionReady with
  | some c =>
    if c.IsTrue then st.MarkTopicReady
    else if c.IsUnknown then st.MarkTopicOperating c.Reason c.Message
    else if c.IsFalse then st.MarkNoTopic c.Reason c.Message
    else st
  | none => st

/-- Lines 130-134: condition initialisation and topic identifier. -/
def prepare {σ : Type} (D : Deps σ) (channel : Channel) : Channel :=
  let channel1 := { channel with Status := channel.Status.InitializeConditions }
  if channel1.Status.TopicID = "" then
    { channel1 with
      Status := { channel1.Status with
        TopicID := D.GenerateTopicName channel1.Name channel1.UID } }
  else channel1

/-- Lines 127-162: `reconcile`. `createTopic` never returns a nil Topic
with a nil error (`createTopic_topic_or_err`), so the `none, none` case, a nil
dereference in Go, is never taken. -/
def reconcile {σ : Type} (D : Deps σ) (channel : Channel) (w : World σ) :
    Option Error × Channel × World σ :=
  let c := createTopic D (prepare D channel) w
  match c.1.2 with
  | some err =>
    (some err,
      { c.2.1 with
        Status := c.2.1.Status.MarkNoTopic "FailedCreate" "Error when attempting to create Topic." },
      c.2.2)
  | none =>
    let channel2 : Channel :=
      match c.1.1 with
      | some topic => { c.2.1 with Status := propagateTopicStatus topic c.2.1.Status }
      | none => c.2.1
    let s := syncSubscribers D channel2 c.2.2
    match s.1 with
    | some err => (some err, s.2.1, s.2.2)
    | none => (none, s.2.1, s.2.2)

/-- Lines 164-189: `updateStatus`. -/
def updateStatus {σ : Type} (D : Deps σ) (desired : Channel) (w : World σ) :
    (Option Channel × Option Error) × World σ :=
  let r := D.channelGet desired.Namespace desired.Name w.ext
  let w1 : World σ :=
    { ext := r.2, trace := w.trace ++ [.channelGet desired.Namespace desired.Name] }
  match r.1 with
  | .error err => ((none, some err), w1)
  | .ok channel =>
    if channel.Status = desired.Status then ((some channel, none), w1)
    else
      let becomesReady := desired.Status.IsReady && !channel.Status.IsReady
      let existing : Channel := { channel with Status := desired.Status }
      let u := D.channelsUpdateStatus desired.Namespace existing w1.ext
      let w2 : World σ :=
        { ext := u.2, trace := w1.trace ++ [.channelsUpdateStatus desired.Namespace existing] }
      let w3 :=
        if u.1.2 = none ∧ becomesReady = true then
          w2.record (.reportReady "Channel" channel.Namespace channel.Name)
        else w2
      ((some u.1.1, u.1.2), w3)

/-- Lines 101-104: stamp the observed generation when no error occurred. -/
def stampObservedGeneration (reconcileErr : Option Error) (channel : Channel) : Channel :=
  if reconcileErr = none then
    { channel with Status := { channel.Status with ObservedGeneration := channel.Generation } }
  else channel

/-- Lines 121-124: the "InternalError" event and the returned error. -/
def finishReconcile {σ : Type} (reconcileErr : Option Error) (channel : Channel) (w : World σ) :
    Option Error × World σ :=
  match reconcileErr with
  | some e => (some e, w.record (.event channel "Warning" "InternalError" e.msg []))
  | none => (none, w)

/-- Lines 106-124: status persistence and the returned error, given the
originally fetched Channel, the outcome of `reconcile` and the stamped copy. -/
def persistAndReturn {σ : Type} (D : Deps σ) (original channel : Channel)
    (reconcileErr : Option Error) (w : World σ) : Option Error × World σ :=
  if original.Status = channel.Status then finishReconcile reconcileErr channel w
  else
    let u := updateStatus D channel w
    match u.1.2 with
    | some uErr =>
      (some uErr, u.2.record (.event channel "Warning" "UpdateFailed"
        "Failed to update status for Channel %q: %v" [channel.Name, uErr.msg]))
    | none =>
      let w2 :=
        if reconcileErr = none then
          u.2.record (.event channel "Normal" "Updated" "Updated Channel %q" [channel.Name])
        else u.2
      finishReconcile reconcileErr channel w2

/-- Lines 71-125: `Reconcile`. -/
def Reconcile {σ : Type} (D : Deps σ) (key : String) (w : World σ) : Option Error × World σ :=
  match D.SplitMetaNamespaceKey key with
  | .error _ => (none, w)
  | .ok (ns, name) =>
    let r := D.channelGet ns name w.ext
    let w1 : World σ := { ext := r.2, trace := w.trace ++ [.channelGet ns name] }
    match r.1 with
    | .error err => if err.isNotFound then (none, w1) else (some err, w1)
    | .ok original =>
      if original.DeletionTimestamp ≠ none then (none, w1)
      else
        let rc := reconcile D original w1
        let channel := stampObservedGeneration rc.1 rc.2.1
        persistAndReturn D original channel rc.1 rc.2.2

/-! ## Names for the intermediate results of `createTopic` -/

/-- The world after the List call of `getTopic`. -/
def afterList {σ : Type} (D : Deps σ) (channel : Channel) (w : World σ) : World σ :=
  { ext := (D.topicsList channel.Namespace
      (D.GetLabelSelector D.controllerAgentName channel.Name) w.ext).2
    trace := w.trace ++
      [.topicsList channel.Namespace (D.GetLabelSelector D.controllerAgentName channel.Name)] }

/-- The object passed to the Create call. -/
def topicToCreate {σ : Type} (D : Deps σ) (channel : Channel) : Topic :=
  D.MakeTopic
    { Owner := channel
      Project := channel.Spec.Project
      Secret := channel.Spec.Secret
      Topic := channel.Status.TopicID
      Labels := D.GetLabels D.controllerAgentName channel.Name }

/-- The Channel after the reuse path of `createTopic`. -/
def withAddress {σ : Type} (D : Deps σ) (channel : Channel) (topic : Topic) : Channel :=
  match topic.Status.Address with
  | some url => { channel with Status := D.SetAddress (some url) channel.Status }
  | none => { channel with Status := D.SetAddress none channel.Status }

/-- The world after the lister Get call of `Reconcile`. -/
def afterGet {σ : Type} (D : Deps σ) (ns name : String) (w : World σ) : World σ :=
  { ext := (D.channelGet ns name w.ext).2, trace := w.trace ++ [.channelGet ns name] }

/-- The copy of the Channel that `reconcile` leaves when `createTopic`
fails (lines 130-139). -/
def failedCreateCopy {σ : Type} (D : Deps σ) (original : Channel) : Channel :=
  { (prepare D original) with
    Status := (prepare D original).Status.MarkNoTopic "FailedCreate"
      "Error when attempting to create Topic." }

/-! ## The desired and observed UID sets of the differ -/

/-- The UIDs of `Spec.Subscribable.Subscribers` (none when `Subscribable`
is nil): the set D. -/
def desiredUIDs (channel : Channel) : List String :=
  match channel.Spec.Subscribable with
  | none => []
  | some sb => sb.Subscribers.map SubscriberSpec.UID

/-- The desired subscribers, `Spec.Subscribable.Subscribers` (none when
`Subscribable` is nil). -/
def desiredSubscribers (channel : Channel) : List SubscriberSpec :=
  match channel.Spec.Subscribable with
  | none => []
  | some sb => sb.Subscribers

/-- The UIDs of `Status.Subscribers`: the set O. -/
def observedUIDs (channel : Channel) : List String :=
  channel.Status.Subscribers.map SubscriberStatus.UID

/-! ## An in-memory store, to run the reconciler on concrete inputs -/

/-- An in-memory object store with switches that make the next List,
Create or UpdateStatus call fail. -/
structure Store where
  channels : List Channel
  topics : List Topic
  listErr : Option Error
  createErr : Option Error
  updateErr : Option Error
  deriving DecidableEq, Repr

/-- The controller of an object: its first owner reference flagged as
controller (`metav1.GetControllerOf`). -/
def getControllerOf (refs : List OwnerReference) : Option OwnerReference :=
  refs.find? (fun r => r.Controller == some true)

/-- Split of a "namespace/name" key on the character lists. -/
def splitKey (key : String) : Except Error (String × String) :=
  let cs := key.toList
  match cs.dropWhile (fun c => c != '/') with
  | [] => .ok ("", key)
  | _ :: name =>
    if name.contains '/' then .error { isNotFound := false, msg := "unexpected key format" }
    else .ok (String.mk (cs.takeWhile (fun c => c != '/')), String.mk name)

/-- The collaborators over the in-memory store. -/
def storeDeps : Deps Store where
  channelGet := fun ns name s =>
    (match s.channels.find? (fun c => c.Namespace == ns && c.Name == name) with
      | some c => .ok c
      | none => .error NewNotFound, s)
  topicsList := fun ns selector s =>
    (match s.listErr with
      | some e => .error e
      | none => .ok (s.topics.filter (fun t =>
          t.Namespace == ns && t.Labels == [("selector", selector)])), s)
  topicsCreate := fun _ topic s =>
    match s.createErr with
    | some e =>
      (({ Namespace := "", Name := "", OwnerReferences := [], Labels := [], Project := "",
          Secret := none, TopicID := "", Status := { Conditions := [], Address := none } },
        some e), s)
    | none => ((topic, none), { s with topics := s.topics ++ [topic] })
  channelsUpdateStatus := fun ns channel s =>
    match s.updateErr with
    | some e => ((channel, some e), s)
    | none =>
      ((channel, none),
        { s with channels := s.channels.map (fun c =>
            if c.Namespace == ns && c.Name == channel.Name then channel else c) })
  SplitMetaNamespaceKey := splitKey
  IsControlledBy := fun topic channel =>
    match getControllerOf topic.OwnerReferences with
    | some r => r.UID == channel.UID
    | none => false
  controllerAgentName := "channel-controller"
  GenerateTopicName := fun name uid => "cre-chan-" ++ name ++ "-" ++ uid
  GenerateSubscriptionName := fun name uid => "cre-sub-" ++ name ++ "-" ++ uid
  GetLabels := fun agent name => [("selector", agent ++ "," ++ name)]
  GetLabelSelector := fun agent name => agent ++ "," ++ name
  MakeTopic := fun args =>
    { Namespace := args.Owner.Namespace
      Name := "cre-chan-" ++ args.Owner.Name ++ "-" ++ args.Owner.UID
      OwnerReferences := [{ UID := args.Owner.UID, Controller := some true }]
      Labels := args.Labels
      Project := args.Project
      Secret := args.Secret
      TopicID := args.Topic
      Status := { Conditions := [], Address := none } }
  SetAddress := fun url st => { st with Address := url }

/-- A Channel "ns/c" with the given subscriber lists and an empty
condition set. -/
def mkChannel (desired : Option (List SubscriberSpec)) (observed : List SubscriberStatus) :
    Channel :=
  { Namespace := "ns"
    Name := "c"
    UID := "u"
    Generation := 1
    DeletionTimestamp := none
    Spec := { Project := "p", Secret := none, Subscribable := desired.map Subscribable.mk }
    Status :=
      { Conditions := []
        Address := none
        TopicID := ""
        Subscribers := observed
        ObservedGeneration := 0 } }

/-- Scenario B: status [a gen 1], spec [a gen 2, b gen 1]. -/
def scenarioB : Channel :=
  mkChannel (some [{ UID := "a", Generation := 2 }, { UID := "b", Generation := 1 }])
    [{ UID := "a", ObservedGeneration := 1 }]

/-- Scenario C: status [x gen 1], empty spec subscriber list. -/
def scenarioC : Channel := mkChannel (some []) [{ UID := "x", ObservedGeneration := 1 }]

/-- Scenario C with a nil `Subscribable`. -/
def scenarioCnil : Channel := mkChannel none [{ UID := "x", ObservedGeneration := 1 }]

/-- A spec that names the observed UID "a" twice. -/
def repeatedUID : Channel :=
  mkChannel (some [{ UID := "a", Generation := 1 }, { UID := "a", Generation := 1 }])
    [{ UID := "a", ObservedGeneration := 1 }]

/-- A spec with one subscriber and an empty status list. -/
def oneDesired : Channel := mkChannel (some [{ UID := "a", Generation := 1 }]) []

/-- A Channel with no subscribers. -/
def plainChannel : Channel := mkChannel none []

/-- A store holding the given Channel and Topics, with the given switches. -/
def mkWorld (channel : Channel) (topics : List Topic) (listErr createErr updateErr : Option Error) :
    World Store :=
  { ext :=
      { channels := [channel], topics := topics, listErr := listErr, createErr := createErr,
        updateErr := updateErr }
    trace := [] }

/-- A Topic owned by `plainChannel` whose Ready condition has the given
status, reason and message. -/
def ownedTopic (conds : List Condition) : Topic :=
  { Namespace := "ns"
    Name := "cre-chan-c-u"
    OwnerReferences := [{ UID := "u", Controller := some true }]
    Labels := [("selector", "channel-controller,c")]
    Project := "p"
    Secret := none
    TopicID := "cre-chan-c-u"
    Status := { Conditions := conds, Address := none } }

/-- The Channel `plainChannel` as stored after a reconcile whose Topic
ensure step failed. -/
def settledChannel : Channel := failedCreateCopy storeDeps plainChannel

/-- An error that is not a not-found error. -/
def boom : Error := { isNotFound := false, msg := "boom" }

/-- A write conflict. -/
def conflict : Error := { isNotFound := false, msg := "conflict" }


/-! ## Lemmas on the map model -/

theorem UIDMap.get_eq_none_iff (m : UIDMap) (k : String) :
    m.get k = none ↔ k ∉ m.map Prod.fst := by
  unfold UIDMap.get
  simp only [Option.map_eq_none', List.find?_eq_none]
  simp only [List.mem_map, not_exists, not_and, beq_iff_eq]

theorem UIDMap.mem_keys_delete (m : UIDMap) (k u : String) :
    u ∈ (m.delete k).map Prod.fst ↔ u ∈ m.map Prod.fst ∧ u ≠ k := by
  unfold UIDMap.delete
  simp only [List.mem_map, List.mem_filter]
  constructor
  · rintro ⟨e, ⟨he, hk⟩, rfl⟩
    exact ⟨⟨e, he, rfl⟩, by simpa using hk⟩
  · rintro ⟨⟨e, he, rfl⟩, hk⟩
    exact ⟨e, ⟨he, by simpa using hk⟩, rfl⟩

theorem UIDMap.mem_keys_set (m : UIDMap) (k : String) (v : SubscriberStatus) (u : String) :
    u ∈ (m.set k v).map Prod.fst ↔ u ∈ m.map Prod.fst ∨ u = k := by
  unfold UIDMap.set
  simp only [List.map_append, List.mem_append, List.mem_map, List.mem_filter, List.map_cons,
    List.map_nil, List.mem_singleton]
  constructor
  · rintro (⟨e, ⟨he, _⟩, rfl⟩ | h)
    · exact Or.inl ⟨e, he, rfl⟩
    · exact Or.inr h
  · rintro (⟨e, he, rfl⟩ | h)
    · by_cases hk : e.1 = k
      · exact Or.inr hk
      · exact Or.inl ⟨e, ⟨he, by simpa using hk⟩, rfl⟩
    · exact Or.inr h

theorem UIDMap.keyed_delete (m : UIDMap) (k : String) (h : m.Keyed) : (m.delete k).Keyed := by
  intro e he
  exact h e (List.mem_filter.mp he).1

theorem UIDMap.keyed_set (m : UIDMap) (s : SubscriberStatus) (h : m.Keyed) :
    (m.set s.UID s).Keyed := by
  intro e he
  unfold UIDMap.set at he
  rcases List.mem_append.mp he with h1 | h1
  · exact h e (List.mem_filter.mp h1).1
  · simp at h1
    subst h1
    rfl

theorem UIDMap.keyed_values (m : UIDMap) (h : m.Keyed) :
    (m.map Prod.snd).map SubscriberStatus.UID = m.map Prod.fst := by
  induction m with
  | nil => rfl
  | cons e m ih =>
    have h1 : e.2.UID = e.1 := h e (List.mem_cons_self _ _)
    have h2 : UIDMap.Keyed m := fun x hx => h x (List.mem_cons_of_mem _ hx)
    simp only [List.map_cons, h1, ih h2]

theorem foldl_set_keys (subs : List SubscriberStatus) (m : UIDMap) (u : String) :
    u ∈ (subs.foldl (fun m s => m.set s.UID s) m).map Prod.fst ↔
      u ∈ m.map Prod.fst ∨ u ∈ subs.map SubscriberStatus.UID := by
  induction subs generalizing m with
  | nil => simp
  | cons s subs ih =>
    rw [List.foldl_cons, ih, UIDMap.mem_keys_set]
    simp only [List.map_cons, List.mem_cons]
    tauto

theorem foldl_set_keyed (subs : List SubscriberStatus) (m : UIDMap) (h : m.Keyed) :
    (subs.foldl (fun m s => m.set s.UID s) m).Keyed := by
  induction subs generalizing m with
  | nil => exact h
  | cons s subs ih => exact ih _ (UIDMap.keyed_set m s h)

theorem buildExists_keys (subs : List SubscriberStatus) (u : String) :
    u ∈ (buildExists subs).map Prod.fst ↔ u ∈ subs.map SubscriberStatus.UID := by
  unfold buildExists
  rw [foldl_set_keys]
  simp

theorem buildExists_keyed (subs : List SubscriberStatus) : (buildExists subs).Keyed :=
  foldl_set_keyed subs [] (fun _ h => absurd h (List.not_mem_nil _))

/-! ## Lemmas on the loop over the desired subscribers -/

theorem syncStep_exists (st : SyncState) (want : SubscriberSpec) :
    (syncStep st want).exists_ = st.exists_.delete want.UID := by
  unfold syncStep
  cases h : st.exists_.get want.UID with
  | none => simp
  | some got => by_cases hg : got.ObservedGeneration = want.Generation <;> simp [hg]

theorem syncStep_subU (st : SyncState) (want : SubscriberSpec) :
    (syncStep st want).subU = st.subU := by
  unfold syncStep
  cases h : st.exists_.get want.UID with
  | none => simp
  | some got => by_cases hg : got.ObservedGeneration = want.Generation <;> simp [hg]

theorem syncStep_subD (st : SyncState) (want : SubscriberSpec) :
    (syncStep st want).subD = st.subD := by
  unfold syncStep
  cases h : st.exists_.get want.UID with
  | none => simp
  | some got => by_cases hg : got.ObservedGeneration = want.Generation <;> simp [hg]

theorem syncStep_subC (st : SyncState) (want : SubscriberSpec) :
    (syncStep st want).subC =
      if want.UID ∈ st.exists_.map Prod.fst then st.subC else st.subC ++ [want] := by
  unfold syncStep
  cases h : st.exists_.get want.UID with
  | none =>
    have h1 := (UIDMap.get_eq_none_iff _ _).mp h
    simp [h1]
  | some got =>
    have h1 : want.UID ∈ st.exists_.map Prod.fst := by
      by_contra hc
      rw [(UIDMap.get_eq_none_iff _ _).mpr hc] at h
      cases h
    by_cases hg : got.ObservedGeneration = want.Generation <;> simp [hg, h1]

theorem foldl_syncStep_subU (l : List SubscriberSpec) (st : SyncState) :
    (l.foldl syncStep st).subU = st.subU := by
  induction l generalizing st with
  | nil => rfl
  | cons w l ih => rw [List.foldl_cons, ih, syncStep_subU]

theorem foldl_syncStep_subD (l : List SubscriberSpec) (st : SyncState) :
    (l.foldl syncStep st).subD = st.subD := by
  induction l generalizing st with
  | nil => rfl
  | cons w l ih => rw [List.foldl_cons, ih, syncStep_subD]

theorem foldl_syncStep_keys (l : List SubscriberSpec) (st : SyncState) (u : String) :
    u ∈ (l.foldl syncStep st).exists_.map Prod.fst ↔
      u ∈ st.exists_.map Prod.fst ∧ u ∉ l.map SubscriberSpec.UID := by
  induction l generalizing st with
  | nil => simp
  | cons w l ih =>
    rw [List.foldl_cons, ih, syncStep_exists, UIDMap.mem_keys_delete]
    simp only [List.map_cons, List.mem_cons, not_or]
    tauto

theorem foldl_syncStep_keyed (l : List SubscriberSpec) (st : SyncState) (h : st.exists_.Keyed) :
    (l.foldl syncStep st).exists_.Keyed := by
  induction l generalizing st with
  | nil => exact h
  | cons w l ih =>
    rw [List.foldl_cons]
    apply ih
    rw [syncStep_exists]
    exact UIDMap.keyed_delete _ _ h

/-- The UIDs appended to `subC` by the loop: those absent from the map,
and those present in the map that the list names at least twice. -/
theorem foldl_syncStep_subC (l : List SubscriberSpec) (st : SyncState) (u : String) :
    u ∈ (l.foldl syncStep st).subC.map SubscriberSpec.UID ↔
      u ∈ st.subC.map SubscriberSpec.UID ∨
      (u ∈ l.map SubscriberSpec.UID ∧ u ∉ st.exists_.map Prod.fst) ∨
      (u ∈ st.exists_.map Prod.fst ∧ 2 ≤ (l.map SubscriberSpec.UID).count u) := by
  induction l generalizing st with
  | nil => simp
  | cons w l ih =>
    rw [List.foldl_cons, ih, syncStep_exists, syncStep_subC]
    simp only [UIDMap.mem_keys_delete, List.map_cons, List.mem_cons, List.count_cons]
    by_cases hw : w.UID ∈ st.exists_.map Prod.fst
    · simp only [hw, if_true]
      by_cases hu : u = w.UID
      · subst hu
        have h1 : 2 ≤ List.count w.UID (List.map SubscriberSpec.UID l) + 1 ↔
            w.UID ∈ List.map SubscriberSpec.UID l := by
          rw [← List.count_pos_iff]; omega
        simp only [beq_self_eq_true, if_true, h1]
        tauto
      · have h2 : (w.UID == u) = false := by
          simpa using fun h => hu h.symm
        simp only [h2]
        simp only [Bool.false_eq_true, if_false, Nat.add_zero]
        tauto
    · simp only [hw, if_false, List.map_append, List.mem_append, List.map_cons, List.map_nil,
        List.mem_singleton]
      by_cases hu : u = w.UID
      · subst hu
        simp only [hw]
        tauto
      · have h2 : (w.UID == u) = false := by
          simpa using fun h => hu h.symm
        simp only [h2]
        simp only [Bool.false_eq_true, if_false, Nat.add_zero]
        tauto

theorem foldl_subD (m : UIDMap) (st : SyncState) :
    m.foldl (fun st e => { st with subD := st.subD ++ [e.2] }) st =
      { st with subD := st.subD ++ m.map Prod.snd } := by
  induction m generalizing st with
  | nil => simp
  | cons e m ih => simp [List.foldl_cons, ih]

/-! ## The sets computed by `syncSubscribers` -/

theorem syncSubscribersSets_loop (channel : Channel) :
    syncSubscribersSets channel =
      { (match channel.Spec.Subscribable with
          | none => (⟨[], [], [], buildExists channel.Status.Subscribers⟩ : SyncState)
          | some sb =>
            sb.Subscribers.foldl syncStep ⟨[], [], [], buildExists channel.Status.Subscribers⟩) with
        subD :=
          (match channel.Spec.Subscribable with
            | none => (⟨[], [], [], buildExists channel.Status.Subscribers⟩ : SyncState)
            | some sb =>
              sb.Subscribers.foldl syncStep
                ⟨[], [], [], buildExists channel.Status.Subscribers⟩).subD ++
          ((match channel.Spec.Subscribable with
            | none => (⟨[], [], [], buildExists channel.Status.Subscribers⟩ : SyncState)
            | some sb =>
              sb.Subscribers.foldl syncStep
                ⟨[], [], [], buildExists channel.Status.Subscribers⟩).exists_.map Prod.snd) } := by
  unfold syncSubscribersSets
  simp only [foldl_subD]

/-- The update set is empty on every input: `append(subU)` adds nothing. -/
theorem syncSubscribersSets_subU (channel : Channel) : (syncSubscribersSets channel).subU = [] := by
  rw [syncSubscribersSets_loop]
  cases h : channel.Spec.Subscribable with
  | none => rfl
  | some sb => simp only [foldl_syncStep_subU]

/-- The UIDs of the create set: those of D \ O, and those of O that the
desired list names at least twice. -/
theorem syncSubscribersSets_subC (channel : Channel) (u : String) :
    u ∈ (syncSubscribersSets channel).subC.map SubscriberSpec.UID ↔
      (u ∈ desiredUIDs channel ∧ u ∉ observedUIDs channel) ∨
      (u ∈ observedUIDs channel ∧ 2 ≤ (desiredUIDs channel).count u) := by
  rw [syncSubscribersSets_loop]
  unfold desiredUIDs observedUIDs
  cases h : channel.Spec.Subscribable with
  | none => simp
  | some sb =>
    simp only [foldl_syncStep_subC, buildExists_keys]
    simp

/-- The UIDs of the delete set are those of O \ D. -/
theorem syncSubscribersSets_subD (channel : Channel) (u : String) :
    u ∈ (syncSubscribersSets channel).subD.map SubscriberStatus.UID ↔
      (u ∈ observedUIDs channel ∧ u ∉ desiredUIDs channel) := by
  rw [syncSubscribersSets_loop]
  unfold desiredUIDs observedUIDs
  cases h : channel.Spec.Subscribable with
  | none =>
    simp only [List.nil_append, List.not_mem_nil, not_false_eq_true, and_true]
    rw [UIDMap.keyed_values _ (buildExists_keyed _), buildExists_keys]
  | some sb =>
    simp only [foldl_syncStep_subD, List.nil_append]
    rw [UIDMap.keyed_values _ (foldl_syncStep_keyed _ _ (buildExists_keyed _)),
      foldl_syncStep_keys]
    simp only [buildExists_keys]

/-! ## Claims on the subscriber differ -/

/-- C1: on Scenario B (status [a gen 1], spec [a gen 2, b gen 1]) the
differ computes create = [b] and delete = [], but its update set is empty
although "a" is observed with generation 1 and desired with generation 2:
the changed subscriber is not added to the update set. -/
theorem syncSubscribers_scenarioB_update_dropped :
    (syncSubscribersSets scenarioB).subU = [] ∧
    (syncSubscribersSets scenarioB).subC = [{ UID := "b", Generation := 1 }] ∧
    (syncSubscribersSets scenarioB).subD = [] ∧
    (∃ want ∈ desiredSubscribers scenarioB,
      ∃ got ∈ scenarioB.Status.Subscribers,
        got.UID = want.UID ∧ got.ObservedGeneration ≠ want.Generation ∧
        want ∉ (syncSubscribersSets scenarioB).subU) := by
  refine ⟨by decide, by decide, by decide, ?_⟩
  exact ⟨{ UID := "a", Generation := 2 }, by decide, { UID := "a", ObservedGeneration := 1 },
    by decide, by decide, by decide, by decide⟩

/-- C2, as stated, fails: with the spec naming UID "a" twice and the
status holding "a", the create set contains "a", which is not in D \ O. -/
theorem create_set_repeated_uid_counterexample :
    ¬ (∀ u : String,
        u ∈ (syncSubscribersSets repeatedUID).subC.map SubscriberSpec.UID ↔
          (u ∈ desiredUIDs repeatedUID ∧ u ∉ observedUIDs repeatedUID)) := by
  intro h
  have h1 : "a" ∈ (syncSubscribersSets repeatedUID).subC.map SubscriberSpec.UID := by decide
  have h2 : "a" ∈ observedUIDs repeatedUID := by decide
  exact ((h "a").mp h1).2 h2

/-- C2, amended: when no UID present in Status.Subscribers occurs more
than once in the desired list (in particular when the desired UIDs are
pairwise distinct or Subscribable is nil), the set of UIDs of the create set
computed by syncSubscribers equals D \ O. -/
theorem create_set_eq_desired_minus_observed (channel : Channel)
    (hdistinct : ∀ u ∈ observedUIDs channel, (desiredUIDs channel).count u ≤ 1) (u : String) :
    u ∈ (syncSubscribersSets channel).subC.map SubscriberSpec.UID ↔
      (u ∈ desiredUIDs channel ∧ u ∉ observedUIDs channel) := by
  rw [syncSubscribersSets_subC]
  constructor
  · rintro (h | ⟨ho, hc⟩)
    · exact h
    · have := hdistinct u ho
      omega
  · exact Or.inl

/-- C2 amended, on Scenario B, where no observed UID is repeated in the
spec. -/
theorem create_set_eq_desired_minus_observed_witness :
    (∀ u ∈ observedUIDs scenarioB, (desiredUIDs scenarioB).count u ≤ 1) ∧
    ("b" ∈ (syncSubscribersSets scenarioB).subC.map SubscriberSpec.UID ↔
      ("b" ∈ desiredUIDs scenarioB ∧ "b" ∉ observedUIDs scenarioB)) :=
  ⟨by decide, create_set_eq_desired_minus_observed scenarioB (by decide) "b"⟩

/-- C3: for every Channel the set of UIDs of the delete set computed by
syncSubscribers equals O \ D; and with status [x gen 1] and an empty or nil
spec subscriber list the differ yields delete = [x], create = [], update = []. -/
theorem delete_set_eq_observed_minus_desired :
    (∀ (channel : Channel) (u : String),
      u ∈ (syncSubscribersSets channel).subD.map SubscriberStatus.UID ↔
        (u ∈ observedUIDs channel ∧ u ∉ desiredUIDs channel)) ∧
    ((syncSubscribersSets scenarioC).subD = [{ UID := "x", ObservedGeneration := 1 }] ∧
      (syncSubscribersSets scenarioC).subC = [] ∧ (syncSubscribersSets scenarioC).subU = []) ∧
    ((syncSubscribersSets scenarioCnil).subD = [{ UID := "x", ObservedGeneration := 1 }] ∧
      (syncSubscribersSets scenarioCnil).subC = [] ∧
      (syncSubscribersSets scenarioCnil).subU = []) :=
  ⟨syncSubscribersSets_subD, by decide, by decide⟩

/-! ## `syncSubscribers` -/

theorem foldl_record_ext {σ α : Type} (f : α → Action) (l : List α) (w : World σ) :
    (l.foldl (fun w s => w.record (f s)) w).ext = w.ext := by
  induction l generalizing w with
  | nil => rfl
  | cons a l ih => rw [List.foldl_cons, ih]; rfl

theorem foldl_record_trace {σ α : Type} (f : α → Action) (l : List α) (w : World σ) :
    (l.foldl (fun w s => w.record (f s)) w).trace = w.trace ++ l.map f := by
  induction l generalizing w with
  | nil => simp
  | cons a l ih => rw [List.foldl_cons, ih]; simp [World.record]

/-- C10, as stated, fails: with one desired subscriber "a" and an empty
status list the sync step returns nil, yet Status.Subscribers afterwards is
still empty, so its UID set differs from the desired one. -/
theorem syncSubscribers_status_not_updated_counterexample :
    (syncSubscribers storeDeps oneDesired (mkWorld oneDesired [] none none none)).1 = none ∧
    ¬ (∀ u : String,
        u ∈ observedUIDs
            (syncSubscribers storeDeps oneDesired (mkWorld oneDesired [] none none none)).2.1 ↔
          u ∈ desiredUIDs oneDesired) := by
  refine ⟨by decide, fun h => ?_⟩
  have h1 : "a" ∈ desiredUIDs oneDesired := by decide
  have h2 : "a" ∉ observedUIDs
      (syncSubscribers storeDeps oneDesired (mkWorld oneDesired [] none none none)).2.1 := by
    decide
  exact h2 ((h "a").mpr h1)

/-- C10, amended: for every Channel, syncSubscribers returns nil and
leaves the Channel (its Status.Subscribers included) and the store as they
were; it only logs one line per entry of the create, update and delete sets. -/
theorem syncSubscribers_leaves_channel_unchanged {σ : Type} (D : Deps σ) (channel : Channel)
    (w : World σ) :
    (syncSubscribers D channel w).1 = none ∧
    (syncSubscribers D channel w).2.1 = channel ∧
    (syncSubscribers D channel w).2.1.Status.Subscribers = channel.Status.Subscribers ∧
    (syncSubscribers D channel w).2.2.ext = w.ext ∧
    (syncSubscribers D channel w).2.2.trace =
      w.trace ++
        (syncSubscribersSets channel).subC.map (fun s =>
          Action.info "Channel %q will create subscription %s"
            [channel.Name, D.GenerateSubscriptionName channel.Name s.UID]) ++
        (syncSubscribersSets channel).subU.map (fun s =>
          Action.info "Channel %q will update subscription %s"
            [channel.Name, D.GenerateSubscriptionName channel.Name s.UID]) ++
        (syncSubscribersSets channel).subD.map (fun s =>
          Action.info "Channel %q will delete subscription %s"
            [channel.Name, D.GenerateSubscriptionName channel.Name s.UID]) := by
  refine ⟨rfl, rfl, rfl, ?_, ?_⟩
  · simp only [syncSubscribers, foldl_record_ext]
  · simp only [syncSubscribers, foldl_record_trace]

/-! ## Lemmas on condition sets -/

theorem getCond_setCond (cs : List Condition) (c : Condition) :
    getCond (setCond cs c) c.Type_ = some c := by
  unfold setCond
  cases h : getCond cs c.Type_ with
  | none =>
    simp only [Option.isSome_none, Bool.false_eq_true, if_false]
    unfold getCond at h ⊢
    rw [List.find?_append, h]
    simp
  | some x =>
    simp only [Option.isSome_some, if_true]
    unfold getCond at h ⊢
    rw [List.find?_map]
    have hp : ((fun d : Condition => d.Type_ == c.Type_) ∘
        fun y : Condition => if (y.Type_ == c.Type_) = true then c else y) =
        fun d : Condition => d.Type_ == c.Type_ := by
      funext y
      by_cases hy : y.Type_ = c.Type_
      · simp [hy]
      · simp [hy]
    rw [hp, h]
    have hx : x.Type_ = c.Type_ := by
      have := List.find?_some h
      simpa using this
    simp [hx]

theorem GetCondition_MarkTopicReady (st : ChannelStatus) :
    st.MarkTopicReady.GetCondition ChannelConditionTopicReady =
      some { Type_ := ChannelConditionTopicReady, Status := "True", Reason := "", Message := "" } :=
  getCond_setCond st.Conditions _

theorem GetCondition_MarkTopicOperating (st : ChannelStatus) (reason message : String) :
    (st.MarkTopicOperating reason message).GetCondition ChannelConditionTopicReady =
      some { Type_ := ChannelConditionTopicReady, Status := "Unknown", Reason := reason,
             Message := message } :=
  getCond_setCond st.Conditions _

theorem GetCondition_MarkNoTopic (st : ChannelStatus) (reason message : String) :
    (st.MarkNoTopic reason message).GetCondition ChannelConditionTopicReady =
      some { Type_ := ChannelConditionTopicReady, Status := "False", Reason := reason,
             Message := message } :=
  getCond_setCond st.Conditions _

/-! ## Lemmas on `getTopic` and `createTopic` -/

theorem getTopic_world {σ : Type} (D : Deps σ) (channel : Channel) (w : World σ) :
    (getTopic D channel w).2 = afterList D channel w := by
  unfold getTopic afterList
  simp only
  split
  · rfl
  · split <;> rfl

theorem getTopic_found {σ : Type} (D : Deps σ) (channel : Channel) (w : World σ)
    (items : List Topic) (topic : Topic)
    (hlist : (D.topicsList channel.Namespace
      (D.GetLabelSelector D.controllerAgentName channel.Name) w.ext).1 = .ok items)
    (hfind : items.find? (fun t => D.IsControlledBy t channel) = some topic) :
    (getTopic D channel w).1 = (some topic, none) := by
  unfold getTopic
  simp only [hlist, hfind]

theorem getTopic_absent {σ : Type} (D : Deps σ) (channel : Channel) (w : World σ)
    (items : List Topic)
    (hlist : (D.topicsList channel.Namespace
      (D.GetLabelSelector D.controllerAgentName channel.Name) w.ext).1 = .ok items)
    (hfind : items.find? (fun t => D.IsControlledBy t channel) = none) :
    (getTopic D channel w).1 = (none, some NewNotFound) := by
  unfold getTopic
  simp only [hlist, hfind]

theorem getTopic_listError {σ : Type} (D : Deps σ) (channel : Channel) (w : World σ)
    (err : Error)
    (hlist : (D.topicsList channel.Namespace
      (D.GetLabelSelector D.controllerAgentName channel.Name) w.ext).1 = .error err) :
    (getTopic D channel w).1 = (none, some err) := by
  unfold getTopic
  simp only [hlist]

theorem createTopic_reuse {σ : Type} (D : Deps σ) (channel : Channel) (w : World σ)
    (topic : Topic) (hget : (getTopic D channel w).1 = (some topic, none)) :
    createTopic D channel w =
      ((some topic, none), withAddress D channel topic, afterList D channel w) := by
  unfold createTopic
  simp only [hget, getTopic_world, ne_eq, not_true_eq_false, false_and, if_false]
  rfl

theorem createTopic_fetchError {σ : Type} (D : Deps σ) (channel : Channel) (w : World σ)
    (err : Error) (hget : (getTopic D channel w).1 = (none, some err))
    (hnf : err.isNotFound = false) :
    createTopic D channel w = ((none, some err), channel, afterList D channel w) := by
  unfold createTopic
  simp [hget, getTopic_world, IsNotFound, hnf]

theorem createTopic_create {σ : Type} (D : Deps σ) (channel : Channel) (w : World σ)
    (err : Error) (hget : (getTopic D channel w).1 = (none, some err))
    (hnf : err.isNotFound = true) :
    createTopic D channel w =
      ((some (D.topicsCreate channel.Namespace (topicToCreate D channel)
              (afterList D channel w).ext).1.1,
        (D.topicsCreate channel.Namespace (topicToCreate D channel)
              (afterList D channel w).ext).1.2),
       channel,
       if (D.topicsCreate channel.Namespace (topicToCreate D channel)
              (afterList D channel w).ext).1.2 ≠ none then
         (World.mk (D.topicsCreate channel.Namespace (topicToCreate D channel)
              (afterList D channel w).ext).2
            ((afterList D channel w).trace ++
              [.topicsCreate channel.Namespace (topicToCreate D channel)])).record
           (.event channel "Normal" "TopicCreated" "Created Topic %q"
             [(D.topicsCreate channel.Namespace (topicToCreate D channel)
               (afterList D channel w).ext).1.1.Name])
       else
         World.mk (D.topicsCreate channel.Namespace (topicToCreate D channel)
              (afterList D channel w).ext).2
            ((afterList D channel w).trace ++
              [.topicsCreate channel.Namespace (topicToCreate D channel)])) := by
  unfold createTopic
  simp only [hget, getTopic_world, IsNotFound, hnf, ne_eq, Bool.true_eq_false, and_false,
    if_false]
  rfl

/-- The three outcomes of `getTopic`. -/
theorem getTopic_cases {σ : Type} (D : Deps σ) (channel : Channel) (w : World σ) :
    (∃ topic, (getTopic D channel w).1 = (some topic, none)) ∨
    (∃ err, (getTopic D channel w).1 = (none, some err)) := by
  unfold getTopic
  simp only
  split
  · exact Or.inr ⟨_, rfl⟩
  · split
    · exact Or.inl ⟨_, rfl⟩
    · exact Or.inr ⟨_, rfl⟩

/-- `createTopic` never returns a nil Topic together with a nil error. -/
theorem createTopic_topic_or_err {σ : Type} (D : Deps σ) (channel : Channel) (w : World σ)
    (h : (createTopic D channel w).1.1 = none) : (createTopic D channel w).1.2 ≠ none := by
  rcases getTopic_cases D channel w with ⟨topic, hg⟩ | ⟨err, hg⟩
  · rw [createTopic_reuse D channel w topic hg] at h
    cases h
  · cases hnf : err.isNotFound with
    | false =>
      rw [createTopic_fetchError D channel w err hg hnf]
      simp
    | true =>
      rw [createTopic_create D channel w err hg hnf] at h
      cases h

/-- A failing `createTopic` leaves the Channel as it was. -/
theorem createTopic_err_channel {σ : Type} (D : Deps σ) (channel : Channel) (w : World σ)
    (e : Error) (h : (createTopic D channel w).1.2 = some e) :
    (createTopic D channel w).2.1 = channel := by
  rcases getTopic_cases D channel w with ⟨topic, hg⟩ | ⟨err, hg⟩
  · rw [createTopic_reuse D channel w topic hg] at h
    cases h
  · cases hnf : err.isNotFound with
    | false => rw [createTopic_fetchError D channel w err hg hnf]
    | true => rw [createTopic_create D channel w err hg hnf]

/-! ## Lemmas on `reconcile` -/

theorem reconcile_ok {σ : Type} (D : Deps σ) (channel : Channel) (w : World σ) (topic : Topic)
    (hensure : (createTopic D (prepare D channel) w).1 = (some topic, none)) :
    reconcile D channel w =
      (none,
        { (createTopic D (prepare D channel) w).2.1 with
          Status := propagateTopicStatus topic (createTopic D (prepare D channel) w).2.1.Status },
        (syncSubscribers D
          { (createTopic D (prepare D channel) w).2.1 with
            Status :=
              propagateTopicStatus topic (createTopic D (prepare D channel) w).2.1.Status }
          (createTopic D (prepare D channel) w).2.2).2.2) := by
  unfold reconcile
  simp only [hensure]
  rfl

theorem reconcile_err {σ : Type} (D : Deps σ) (channel : Channel) (w : World σ) (e : Error)
    (hensure : (createTopic D (prepare D channel) w).1.2 = some e) :
    reconcile D channel w =
      (some e,
        { (prepare D channel) with
          Status := (prepare D channel).Status.MarkNoTopic "FailedCreate"
            "Error when attempting to create Topic." },
        (createTopic D (prepare D channel) w).2.2) := by
  unfold reconcile
  simp only [hensure, createTopic_err_channel D (prepare D channel) w e hensure]

/-! ## Claims on the Topic ensure step and the condition propagation -/

/-- C4: when the ensure step returns a Topic, reconcile maps the Topic's
Ready condition onto the Channel's topic condition: True marks it ready;
Unknown marks it operating with the Topic condition's reason and message;
False marks it not-ready with the Topic condition's reason and message; and
with no Ready condition on the Topic the Channel status is exactly the one
before the propagation step. -/
theorem reconcile_propagates_topic_ready {σ : Type} (D : Deps σ) (channel : Channel)
    (w : World σ) (topic : Topic)
    (hensure : (createTopic D (prepare D channel) w).1 = (some topic, none)) :
    (∀ c, topic.Status.GetCondition TopicConditionReady = some c → c.Status = "True" →
      (reconcile D channel w).2.1.Status =
          (createTopic D (prepare D channel) w).2.1.Status.MarkTopicReady ∧
        (reconcile D channel w).2.1.Status.GetCondition ChannelConditionTopicReady =
          some { Type_ := ChannelConditionTopicReady, Status := "True", Reason := "",
                 Message := "" }) ∧
    (∀ c, topic.Status.GetCondition TopicConditionReady = some c → c.Status = "Unknown" →
      (reconcile D channel w).2.1.Status =
          (createTopic D (prepare D channel) w).2.1.Status.MarkTopicOperating c.Reason
            c.Message ∧
        (reconcile D channel w).2.1.Status.GetCondition ChannelConditionTopicReady =
          some { Type_ := ChannelConditionTopicReady, Status := "Unknown", Reason := c.Reason,
                 Message := c.Message }) ∧
    (∀ c, topic.Status.GetCondition TopicConditionReady = some c → c.Status = "False" →
      (reconcile D channel w).2.1.Status =
          (createTopic D (prepare D channel) w).2.1.Status.MarkNoTopic c.Reason c.Message ∧
        (reconcile D channel w).2.1.Status.GetCondition ChannelConditionTopicReady =
          some { Type_ := ChannelConditionTopicReady, Status := "False", Reason := c.Reason,
                 Message := c.Message }) ∧
    (topic.Status.GetCondition TopicConditionReady = none →
      (reconcile D channel w).2.1.Status = (createTopic D (prepare D channel) w).2.1.Status) := by
  rw [reconcile_ok D channel w topic hensure]
  refine ⟨?_, ?_, ?_, ?_⟩
  · intro c hc hs
    have h : propagateTopicStatus topic (createTopic D (prepare D channel) w).2.1.Status =
        (createTopic D (prepare D channel) w).2.1.Status.MarkTopicReady := by
      simp [propagateTopicStatus, hc, Condition.IsTrue, hs]
    simp only [h]
    exact ⟨trivial, GetCondition_MarkTopicReady _⟩
  · intro c hc hs
    have h : propagateTopicStatus topic (createTopic D (prepare D channel) w).2.1.Status =
        (createTopic D (prepare D channel) w).2.1.Status.MarkTopicOperating c.Reason
          c.Message := by
      simp [propagateTopicStatus, hc, Condition.IsTrue, Condition.IsUnknown, hs]
    simp only [h]
    exact ⟨trivial, GetCondition_MarkTopicOperating _ _ _⟩
  · intro c hc hs
    have h : propagateTopicStatus topic (createTopic D (prepare D channel) w).2.1.Status =
        (createTopic D (prepare D channel) w).2.1.Status.MarkNoTopic c.Reason c.Message := by
      simp [propagateTopicStatus, hc, Condition.IsTrue, Condition.IsUnknown, Condition.IsFalse,
        hs]
    simp only [h]
    exact ⟨trivial, GetCondition_MarkNoTopic _ _ _⟩
  · intro hc
    simp [propagateTopicStatus, hc]

/-- C4 on the in-memory store holding an owned Topic whose Ready
condition is True. -/
theorem reconcile_propagates_topic_ready_witness :
    (createTopic storeDeps (prepare storeDeps plainChannel)
        (mkWorld plainChannel [ownedTopic [⟨"Ready", "True", "", ""⟩]] none none none)).1 =
      (some (ownedTopic [⟨"Ready", "True", "", ""⟩]), none) ∧
    (reconcile storeDeps plainChannel
        (mkWorld plainChannel [ownedTopic [⟨"Ready", "True", "", ""⟩]] none none
          none)).2.1.Status.GetCondition ChannelConditionTopicReady =
      some { Type_ := ChannelConditionTopicReady, Status := "True", Reason := "", Message := "" } :=
  ⟨by decide,
    ((reconcile_propagates_topic_ready storeDeps plainChannel
      (mkWorld plainChannel [ownedTopic [⟨"Ready", "True", "", ""⟩]] none none none)
      (ownedTopic [⟨"Ready", "True", "", ""⟩]) (by decide)).1 ⟨"Ready", "True", "", ""⟩
        (by decide) (by decide)).2⟩

/-- When no owned Topic is found, the "TopicCreated" event follows the
Create call exactly when that call returns an error. -/
theorem createTopic_event_iff_create_fails {σ : Type} (D : Deps σ) (channel : Channel)
    (w : World σ) (items : List Topic)
    (hlist : (D.topicsList channel.Namespace
      (D.GetLabelSelector D.controllerAgentName channel.Name) w.ext).1 = .ok items)
    (hfind : items.find? (fun t => D.IsControlledBy t channel) = none) :
    (createTopic D channel w).2.2.trace =
      w.trace ++
        [.topicsList channel.Namespace (D.GetLabelSelector D.controllerAgentName channel.Name),
         .topicsCreate channel.Namespace (topicToCreate D channel)] ++
        (if (createTopic D channel w).1.2 ≠ none then
          [.event channel "Normal" "TopicCreated" "Created Topic %q"
            [(D.topicsCreate channel.Namespace (topicToCreate D channel)
              (afterList D channel w).ext).1.1.Name]]
        else []) := by
  rw [createTopic_create D channel w NewNotFound (getTopic_absent D channel w items hlist hfind)
    rfl]
  simp only
  split <;> simp [World.record, afterList]

/-- C5: with no owned Topic in the store, a Create call that succeeds is
followed by no "TopicCreated" event, and a Create call that fails with "boom"
is followed by the "TopicCreated" event: the event is recorded on failure and
not on success. -/
theorem createTopic_event_recorded_on_failure_only :
    ((createTopic storeDeps (prepare storeDeps plainChannel)
        (mkWorld plainChannel [] none none none)).1.2 = none ∧
      (createTopic storeDeps (prepare storeDeps plainChannel)
        (mkWorld plainChannel [] none none none)).2.2.trace =
        [.topicsList "ns" "channel-controller,c",
         .topicsCreate "ns" (topicToCreate storeDeps (prepare storeDeps plainChannel))]) ∧
    ((createTopic storeDeps (prepare storeDeps plainChannel)
        (mkWorld plainChannel [] none (some boom) none)).1.2 = some boom ∧
      (createTopic storeDeps (prepare storeDeps plainChannel)
        (mkWorld plainChannel [] none (some boom) none)).2.2.trace =
        [.topicsList "ns" "channel-controller,c",
         .topicsCreate "ns" (topicToCreate storeDeps (prepare storeDeps plainChannel)),
         .event (prepare storeDeps plainChannel) "Normal" "TopicCreated" "Created Topic %q"
           [""]]) := by
  refine ⟨⟨by decide, by decide⟩, ⟨by decide, by decide⟩⟩

/-- C6: whenever the listing contains a Topic controlled by the Channel,
createTopic returns the first such Topic with no error and issues the List
call only (no Create); and if a first call created a Topic which the listing
after that call shows as the Topic controlled by the Channel, the first call
left the Channel as it was and a second call on the same Channel returns that
same Topic, again with the List call only. -/
theorem createTopic_idempotent {σ : Type} (D : Deps σ) (channel : Channel) (w : World σ)
    (topic : Topic) :
    (∀ items,
      (D.topicsList channel.Namespace (D.GetLabelSelector D.controllerAgentName channel.Name)
        w.ext).1 = .ok items →
      items.find? (fun t => D.IsControlledBy t channel) = some topic →
      (createTopic D channel w).1 = (some topic, none) ∧
      (createTopic D channel w).2.2.ext =
        (D.topicsList channel.Namespace (D.GetLabelSelector D.controllerAgentName channel.Name)
          w.ext).2 ∧
      (createTopic D channel w).2.2.trace =
        w.trace ++
          [.topicsList channel.Namespace
            (D.GetLabelSelector D.controllerAgentName channel.Name)]) ∧
    (∀ items,
      (createTopic D channel w).1 = (some topic, none) →
      (createTopic D channel w).2.2.trace =
        w.trace ++
          [.topicsList channel.Namespace (D.GetLabelSelector D.controllerAgentName channel.Name),
           .topicsCreate channel.Namespace (topicToCreate D channel)] →
      (D.topicsList channel.Namespace (D.GetLabelSelector D.controllerAgentName channel.Name)
        (createTopic D channel w).2.2.ext).1 = .ok items →
      items.find? (fun t => D.IsControlledBy t channel) = some topic →
      (createTopic D channel w).2.1 = channel ∧
      (createTopic D (createTopic D channel w).2.1 (createTopic D channel w).2.2).1 =
        (some topic, none) ∧
      (createTopic D (createTopic D channel w).2.1 (createTopic D channel w).2.2).2.2.trace =
        (createTopic D channel w).2.2.trace ++
          [.topicsList channel.Namespace
            (D.GetLabelSelector D.controllerAgentName channel.Name)]) := by
  have key : ∀ (w0 : World σ) (items : List Topic),
      (D.topicsList channel.Namespace (D.GetLabelSelector D.controllerAgentName channel.Name)
        w0.ext).1 = .ok items →
      items.find? (fun t => D.IsControlledBy t channel) = some topic →
      createTopic D channel w0 =
        ((some topic, none), withAddress D channel topic, afterList D channel w0) :=
    fun w0 items hl hf =>
      createTopic_reuse D channel w0 topic (getTopic_found D channel w0 items topic hl hf)
  refine ⟨?_, ?_⟩
  · intro items hl hf
    rw [key w items hl hf]
    exact ⟨rfl, rfl, rfl⟩
  · intro items h1 h2 hl hf
    have hch : (createTopic D channel w).2.1 = channel := by
      rcases getTopic_cases D channel w with ⟨t, hg⟩ | ⟨err, hg⟩
      · rw [createTopic_reuse D channel w t hg] at h2
        have := congrArg List.length h2
        simp [afterList] at this
      · cases hnf : err.isNotFound with
        | false => rw [createTopic_fetchError D channel w err hg hnf]
        | true => rw [createTopic_create D channel w err hg hnf]
    rw [hch, key _ items hl hf]
    exact ⟨rfl, rfl, rfl⟩

/-- C6 on the in-memory store: the first call creates the Topic, the
second call returns it. -/
theorem createTopic_idempotent_witness :
    (createTopic storeDeps (prepare storeDeps plainChannel)
        (mkWorld plainChannel [] none none none)).1 =
      (some (topicToCreate storeDeps (prepare storeDeps plainChannel)), none) ∧
    (createTopic storeDeps (prepare storeDeps plainChannel)
        (mkWorld plainChannel [] none none none)).2.2.trace =
      [.topicsList "ns" "channel-controller,c",
       .topicsCreate "ns" (topicToCreate storeDeps (prepare storeDeps plainChannel))] ∧
    (createTopic storeDeps
        (createTopic storeDeps (prepare storeDeps plainChannel)
          (mkWorld plainChannel [] none none none)).2.1
        (createTopic storeDeps (prepare storeDeps plainChannel)
          (mkWorld plainChannel [] none none none)).2.2).1 =
      (some (topicToCreate storeDeps (prepare storeDeps plainChannel)), none) :=
  ⟨by decide, by decide,
    ((createTopic_idempotent storeDeps (prepare storeDeps plainChannel)
      (mkWorld plainChannel [] none none none)
      (topicToCreate storeDeps (prepare storeDeps plainChannel))).2
        [topicToCreate storeDeps (prepare storeDeps plainChannel)]
        (by decide) (by decide) rfl (by decide)).2.1⟩

/-! ## Lemmas on `Reconcile` and `updateStatus` -/

/-- A run with a well-formed key, the Channel found and not being deleted
reaches the convergence steps and the persistence step. -/
theorem Reconcile_reaches {σ : Type} (D : Deps σ) (key : String) (w : World σ)
    (ns name : String) (original : Channel)
    (hkey : D.SplitMetaNamespaceKey key = .ok (ns, name))
    (hget : (D.channelGet ns name w.ext).1 = .ok original)
    (hlive : original.DeletionTimestamp = none) :
    Reconcile D key w =
      persistAndReturn D original
        (stampObservedGeneration (reconcile D original (afterGet D ns name w)).1
          (reconcile D original (afterGet D ns name w)).2.1)
        (reconcile D original (afterGet D ns name w)).1
        (reconcile D original (afterGet D ns name w)).2.2 := by
  unfold Reconcile
  simp only [hkey, hget, hlive, ne_eq, not_true_eq_false, if_false]
  rfl

theorem finishReconcile_fst {σ : Type} (reconcileErr : Option Error) (channel : Channel)
    (w : World σ) : (finishReconcile reconcileErr channel w).1 = reconcileErr := by
  cases reconcileErr <;> rfl

theorem persistAndReturn_fst {σ : Type} (D : Deps σ) (original channel : Channel)
    (reconcileErr : Option Error) (w : World σ) :
    (persistAndReturn D original channel reconcileErr w).1 =
      if original.Status = channel.Status then reconcileErr
      else
        match (updateStatus D channel w).1.2 with
        | some uErr => some uErr
        | none => reconcileErr := by
  unfold persistAndReturn
  by_cases h : original.Status = channel.Status
  · simp only [h, if_true, finishReconcile_fst]
  · simp only [h, if_false]
    cases hu : (updateStatus D channel w).1.2 with
    | none => simp only [finishReconcile_fst]
    | some uErr => rfl

theorem prepare_ObservedGeneration {σ : Type} (D : Deps σ) (channel : Channel) :
    (prepare D channel).Status.ObservedGeneration = channel.Status.ObservedGeneration := by
  unfold prepare
  simp only
  split <;> rfl

/-! ## Claims on `Reconcile` and `updateStatus` -/

/-- C7: if the freshly fetched Channel's status equals the desired status,
updateStatus returns the fetched Channel with no error and issues the lister
Get only, no UpdateStatus write; and when the reconciled copy's status equals
the originally fetched status, Reconcile goes from the end of reconcile
straight to its result: it returns the convergence error, the store is as
reconcile left it, and the trace gains at most the "InternalError" event, so
updateStatus is not called. -/
theorem updateStatus_noop_when_status_equal {σ : Type} (D : Deps σ) (w : World σ) :
    (∀ (desired fetched : Channel),
      (D.channelGet desired.Namespace desired.Name w.ext).1 = .ok fetched →
      fetched.Status = desired.Status →
      (updateStatus D desired w).1 = (some fetched, none) ∧
      (updateStatus D desired w).2.ext =
        (D.channelGet desired.Namespace desired.Name w.ext).2 ∧
      (updateStatus D desired w).2.trace =
        w.trace ++ [.channelGet desired.Namespace desired.Name]) ∧
    (∀ (key ns name : String) (original : Channel),
      D.SplitMetaNamespaceKey key = .ok (ns, name) →
      (D.channelGet ns name w.ext).1 = .ok original →
      original.DeletionTimestamp = none →
      original.Status =
        (stampObservedGeneration (reconcile D original (afterGet D ns name w)).1
          (reconcile D original (afterGet D ns name w)).2.1).Status →
      (Reconcile D key w).1 = (reconcile D original (afterGet D ns name w)).1 ∧
      (Reconcile D key w).2.ext = (reconcile D original (afterGet D ns name w)).2.2.ext ∧
      (Reconcile D key w).2.trace =
        (reconcile D original (afterGet D ns name w)).2.2.trace ++
          (match (reconcile D original (afterGet D ns name w)).1 with
            | some e =>
              [.event (reconcile D original (afterGet D ns name w)).2.1 "Warning"
                "InternalError" e.msg []]
            | none => [])) := by
  refine ⟨?_, ?_⟩
  · intro desired fetched hget heq
    unfold updateStatus
    simp only [hget, heq, if_true]
    exact ⟨trivial, trivial, trivial⟩
  · intro key ns name original hkey hget hlive heq
    rw [Reconcile_reaches D key w ns name original hkey hget hlive]
    unfold persistAndReturn
    simp only [← heq, if_true]
    cases hrc : (reconcile D original (afterGet D ns name w)).1 with
    | none => simp [finishReconcile]
    | some e => simp [finishReconcile, World.record, stampObservedGeneration]

/-- C7 on the in-memory store: the stored Channel already carries the
"FailedCreate" status and the List call fails again. -/
theorem updateStatus_noop_when_status_equal_witness :
    ((storeDeps.channelGet settledChannel.Namespace settledChannel.Name
        (mkWorld settledChannel [] (some boom) none none).ext).1 = .ok settledChannel ∧
      (updateStatus storeDeps settledChannel
        (mkWorld settledChannel [] (some boom) none none)).2.trace = [.channelGet "ns" "c"]) ∧
    (settledChannel.Status =
        (stampObservedGeneration
          (reconcile storeDeps settledChannel
            (afterGet storeDeps "ns" "c" (mkWorld settledChannel [] (some boom) none none))).1
          (reconcile storeDeps settledChannel
            (afterGet storeDeps "ns" "c"
              (mkWorld settledChannel [] (some boom) none none))).2.1).Status ∧
      (Reconcile storeDeps "ns/c" (mkWorld settledChannel [] (some boom) none none)).2.trace =
        [.channelGet "ns" "c", .topicsList "ns" "channel-controller,c",
         .event settledChannel "Warning" "InternalError" "boom" []]) :=
  ⟨⟨rfl,
      ((updateStatus_noop_when_status_equal storeDeps
        (mkWorld settledChannel [] (some boom) none none)).1
        settledChannel settledChannel rfl rfl).2.2⟩,
    ⟨by decide,
      ((updateStatus_noop_when_status_equal storeDeps
        (mkWorld settledChannel [] (some boom) none none)).2
        "ns/c" "ns" "c" settledChannel rfl rfl rfl (by decide)).2.2.trans (by decide)⟩⟩

/-- C8, as stated, fails: the List call fails with "boom", so the
convergence step fails with "boom"; the status changed, and the UpdateStatus
write fails with "conflict"; Reconcile returns "conflict", not "boom". -/
theorem Reconcile_returns_persistence_error_counterexample :
    (reconcile storeDeps plainChannel
        (afterGet storeDeps "ns" "c"
          (mkWorld plainChannel [] (some boom) none (some conflict)))).1 = some boom ∧
    (Reconcile storeDeps "ns/c"
        (mkWorld plainChannel [] (some boom) none (some conflict))).1 = some conflict ∧
    (Reconcile storeDeps "ns/c"
        (mkWorld plainChannel [] (some boom) none (some conflict))).1 ≠ some boom := by
  refine ⟨by decide, by decide, by decide⟩

/-- C8, amended: for every Reconcile run that reaches the convergence
steps, Reconcile returns the error of updateStatus when the copy's status
differs from the fetched one and updateStatus fails; in every other case it
returns the outcome of the convergence steps: the error e if a step failed
with e, nil if none failed. -/
theorem Reconcile_returned_error {σ : Type} (D : Deps σ) (key : String) (w : World σ)
    (ns name : String) (original : Channel)
    (hkey : D.SplitMetaNamespaceKey key = .ok (ns, name))
    (hget : (D.channelGet ns name w.ext).1 = .ok original)
    (hlive : original.DeletionTimestamp = none) :
    (Reconcile D key w).1 =
      if original.Status =
          (stampObservedGeneration (reconcile D original (afterGet D ns name w)).1
            (reconcile D original (afterGet D ns name w)).2.1).Status then
        (reconcile D original (afterGet D ns name w)).1
      else
        match (updateStatus D
            (stampObservedGeneration (reconcile D original (afterGet D ns name w)).1
              (reconcile D original (afterGet D ns name w)).2.1)
            (reconcile D original (afterGet D ns name w)).2.2).1.2 with
        | some uErr => some uErr
        | none => (reconcile D original (afterGet D ns name w)).1 := by
  rw [Reconcile_reaches D key w ns name original hkey hget hlive, persistAndReturn_fst]

/-- C8 amended, on the in-memory store with a failing List call and a
working UpdateStatus call. -/
theorem Reconcile_returned_error_witness :
    storeDeps.SplitMetaNamespaceKey "ns/c" = .ok ("ns", "c") ∧
    (storeDeps.channelGet "ns" "c" (mkWorld plainChannel [] (some boom) none none).ext).1 =
      .ok plainChannel ∧
    plainChannel.DeletionTimestamp = none ∧
    (Reconcile storeDeps "ns/c" (mkWorld plainChannel [] (some boom) none none)).1 =
      some boom :=
  ⟨rfl, rfl, rfl,
    (Reconcile_returned_error storeDeps "ns/c" (mkWorld plainChannel [] (some boom) none none)
      "ns" "c" plainChannel rfl rfl rfl).trans (by decide)⟩

/-- C9: when createTopic fails with e, reconcile returns e and leaves the
copy with the topic condition False, reason "FailedCreate"; the observed
generation is not stamped; and whenever that copy's status differs from the
originally fetched status, Reconcile calls updateStatus with that copy, then
returns the updateStatus error with an "UpdateFailed" event if it failed, and
e with an "InternalError" event otherwise. -/
theorem Reconcile_persists_on_ensure_failure {σ : Type} (D : Deps σ) (key : String)
    (w : World σ) (ns name : String) (original : Channel) (e : Error)
    (hkey : D.SplitMetaNamespaceKey key = .ok (ns, name))
    (hget : (D.channelGet ns name w.ext).1 = .ok original)
    (hlive : original.DeletionTimestamp = none)
    (hfail : (createTopic D (prepare D original) (afterGet D ns name w)).1.2 = some e) :
    (reconcile D original (afterGet D ns name w)).1 = some e ∧
    (reconcile D original (afterGet D ns name w)).2.1 = failedCreateCopy D original ∧
    (failedCreateCopy D original).Status.GetCondition ChannelConditionTopicReady =
      some { Type_ := ChannelConditionTopicReady, Status := "False", Reason := "FailedCreate",
             Message := "Error when attempting to create Topic." } ∧
    stampObservedGeneration (reconcile D original (afterGet D ns name w)).1
      (reconcile D original (afterGet D ns name w)).2.1 = failedCreateCopy D original ∧
    (failedCreateCopy D original).Status.ObservedGeneration =
      original.Status.ObservedGeneration ∧
    (original.Status ≠ (failedCreateCopy D original).Status →
      Reconcile D key w =
        match (updateStatus D (failedCreateCopy D original)
            (createTopic D (prepare D original) (afterGet D ns name w)).2.2).1.2 with
        | some uErr =>
          (some uErr,
            (updateStatus D (failedCreateCopy D original)
              (createTopic D (prepare D original) (afterGet D ns name w)).2.2).2.record
              (.event (failedCreateCopy D original) "Warning" "UpdateFailed"
                "Failed to update status for Channel %q: %v"
                [(failedCreateCopy D original).Name, uErr.msg]))
        | none =>
          (some e,
            (updateStatus D (failedCreateCopy D original)
              (createTopic D (prepare D original) (afterGet D ns name w)).2.2).2.record
              (.event (failedCreateCopy D original) "Warning" "InternalError" e.msg []))) := by
  have hrc := reconcile_err D original (afterGet D ns name w) e hfail
  refine ⟨?_, ?_, ?_, ?_, ?_, ?_⟩
  · rw [hrc]
  · rw [hrc]; rfl
  · exact GetCondition_MarkNoTopic _ _ _
  · rw [hrc]; rfl
  · exact prepare_ObservedGeneration D original
  · intro hne
    rw [Reconcile_reaches D key w ns name original hkey hget hlive, hrc]
    have hst : stampObservedGeneration (some e) (failedCreateCopy D original) =
        failedCreateCopy D original := rfl
    show persistAndReturn D original
      (stampObservedGeneration (some e) (failedCreateCopy D original)) (some e) _ = _
    rw [hst]
    unfold persistAndReturn
    simp only [hne, if_false]
    cases hu : (updateStatus D (failedCreateCopy D original)
        (createTopic D (prepare D original) (afterGet D ns name w)).2.2).1.2 with
    | none => simp [finishReconcile]
    | some uErr => rfl

/-- C9 on the in-memory store with a failing List call. -/
theorem Reconcile_persists_on_ensure_failure_witness :
    storeDeps.SplitMetaNamespaceKey "ns/c" = .ok ("ns", "c") ∧
    (storeDeps.channelGet "ns" "c" (mkWorld plainChannel [] (some boom) none none).ext).1 =
      .ok plainChannel ∧
    plainChannel.DeletionTimestamp = none ∧
    (createTopic storeDeps (prepare storeDeps plainChannel)
      (afterGet storeDeps "ns" "c" (mkWorld plainChannel [] (some boom) none none))).1.2 =
      some boom ∧
    (reconcile storeDeps plainChannel
      (afterGet storeDeps "ns" "c" (mkWorld plainChannel [] (some boom) none none))).2.1 =
      failedCreateCopy storeDeps plainChannel :=
  ⟨rfl, rfl, rfl, by decide,
    (Reconcile_persists_on_ensure_failure storeDeps "ns/c"
      (mkWorld plainChannel [] (some boom) none none) "ns" "c" plainChannel boom rfl rfl rfl
      (by decide)).2.1⟩

end ChannelReconciler
